import Mathlib

/-!
Verification of the nullable-infrastructure training repository: the
home page controller that calls a ROT-13 service with a timeout policy,
exercised through a null clock, a null ROT-13 client and a null log.

The controller `postAsync` is translated from the completed controller
source (HomePageController.postAsync).  The ROT-13 text transformation
is translated from rot13.transform, and the WWW view helpers
(pageTemplate, errorPage) from www_view.js.  Infrastructure wrappers
whose sources are not part of this tree (Clock, Rot13Client, Log,
HttpRequest, HttpResponse, home page view) are modelled from the
specification, as marked in their doc comments.
-/

namespace Agile2022

/- ---------------------------------------------------------------- -/
/- URLSearchParams: form-urlencoded body parsing.  Translated from   -/
/- the platform behavior the controller relies on:                   -/
/- new URLSearchParams(body), then getAll(name).                     -/
/- ---------------------------------------------------------------- -/

namespace URLSearchParams

/-- Value of a hexadecimal digit character, `none` for non-hex. -/
def hexDigitVal (c : Char) : Option Nat :=
  if '0' ≤ c ∧ c ≤ '9' then some (c.toNat - 48)
  else if 'A' ≤ c ∧ c ≤ 'F' then some (c.toNat - 55)
  else if 'a' ≤ c ∧ c ≤ 'f' then some (c.toNat - 87)
  else none

/-- Decoding of one form-urlencoded component: `+` becomes space,
`%XX` with two hex digits becomes the code point `XX`, anything else
(including a malformed `%` sequence) is kept verbatim.  Percent
decoding is modelled at the code-point level; multi-byte UTF-8
reassembly is elided (all inputs in this development are ASCII). -/
def formDecode : List Char → List Char
  | [] => []
  | '%' :: h1 :: h2 :: rest =>
    match hexDigitVal h1, hexDigitVal h2 with
    | some a, some b => Char.ofNat (16 * a + b) :: formDecode rest
    | _, _ => '%' :: formDecode (h1 :: h2 :: rest)
  | '+' :: rest => ' ' :: formDecode rest
  | c :: rest => c :: formDecode rest

/-- Split a character list on `&` separators (segments may be empty). -/
def splitOnAmp : List Char → List (List Char)
  | [] => [[]]
  | c :: rest =>
    let r := splitOnAmp rest
    if c = '&' then [] :: r
    else
      match r with
      | [] => [[c]]
      | s :: ss => (c :: s) :: ss

/-- Split a segment at the first `=`: the name is everything before it,
the value everything after it (empty when there is no `=`). -/
def splitFirstEq : List Char → List Char × List Char
  | [] => ([], [])
  | '=' :: rest => ([], rest)
  | c :: rest =>
    let p := splitFirstEq rest
    (c :: p.1, p.2)

/-- Parse a form-urlencoded body into an ordered list of (name, value)
pairs: strip one leading `?`, split on `&`, skip empty segments, split
each segment at the first `=`, and form-decode both components. -/
def parsePairs (body : String) : List (String × String) :=
  let s : List Char :=
    match body.data with
    | '?' :: rest => rest
    | s => s
  (splitOnAmp s).filterMap fun seg =>
    if seg = [] then none
    else
      let p := splitFirstEq seg
      some (⟨formDecode p.1⟩, ⟨formDecode p.2⟩)

/-- The getAll method of URLSearchParams: the values of every field
with the given name, in body order. -/
def getAll (name : String) (body : String) : List String :=
  (parsePairs body).filterMap fun p => if p.1 = name then some p.2 else none

end URLSearchParams

/- ---------------------------------------------------------------- -/
/- Data model: requests, log records, events.                        -/
/- ---------------------------------------------------------------- -/

/-- One entry of the tracked-request list of the null Rot13Client: the
port and text of a transform call; a cancellation appends a second
entry for the same port and text with `cancelled` set. -/
structure Rot13Request where
  port : Nat
  text : String
  cancelled : Bool := false
deriving DecidableEq, Repr

/-- One record written by the logger: the alert level, the message, and
the structured fields the controller attaches on each path (absent
fields are `none`). -/
structure LogRecord where
  alert : String
  message : String
  details : Option String := none
  body : Option String := none
  timeoutInMs : Option Nat := none
  error : Option String := none
deriving DecidableEq, Repr

/-- Observable events of one postAsync execution, in occurrence order:
a request record appended by the null Rot13Client (also used for the
`cancelled: true` record appended by cancelFn), a log record, and the
production of the awaited output value. -/
inductive Event where
  | rot13Request (r : Rot13Request)
  | logRecord (rec : LogRecord)
  | produced (value : String)
deriving DecidableEq, Repr

/-- The log output tracked by `log.trackOutput()`: the log records of
the event trace, in order. -/
def logOutput (events : List Event) : List LogRecord :=
  events.filterMap fun e =>
    match e with
    | .logRecord rec => some rec
    | _ => none

/-- The request list tracked by `rot13Client.trackRequests()`: the
request records of the event trace, in order. -/
def rot13Requests (events : List Event) : List Rot13Request :=
  events.filterMap fun e =>
    match e with
    | .rot13Request r => some r
    | _ => none

/- ---------------------------------------------------------------- -/
/- Spec-modelled infrastructure.                                     -/
/- ---------------------------------------------------------------- -/

/-- Modelled from the spec: the outcome queue of the null Rot13Client
(the Rot13Client source is not in this tree).  Each configured outcome
is a success value, an error value, or a permanent hang. -/
inductive Rot13Outcome where
  | response (value : String)
  | error (message : String)
  | hang
deriving DecidableEq, Repr

/-- Modelled from the spec: the deterministic placeholder success value
the null Rot13Client uses when invoked past the end of its configured
outcome queue. -/
def nullResponseDefault : String := "Null Rot13Client Response"

/-- Modelled from the spec: HttpResponse (source not in this tree) as
an HTML response with a status and a body, the two attributes the view
tests observe. -/
structure HttpResponse where
  status : Nat
  body : String
deriving DecidableEq, Repr

/-- Modelled from the spec: a promise in the null-clock world, as its
settlement time on the logical clock (`none` when it never settles) and
the value it settles with. -/
structure NullPromise (α : Type) where
  settlesAt : Option Nat
  value : α

/-- Modelled from the spec: `clock.timeoutAsync(timeoutInMs, promise,
timeoutFn)` under a null clock (the Clock source is not in this tree).
The result is the value of the promise when it settles at or before the
timeout on the logical clock — the operation wins a simultaneous tie —
and the result of the timeout callback otherwise. -/
def timeoutAsync {α : Type} (timeoutInMs : Nat) (promise : NullPromise α)
    (timeoutFn : Unit → α) : α :=
  match promise.settlesAt with
  | some t => if t ≤ timeoutInMs then promise.value else timeoutFn ()
  | none => timeoutFn ()

/- ---------------------------------------------------------------- -/
/- WWW view (translated from www_view.js).                           -/
/- ---------------------------------------------------------------- -/

namespace wwwView

/-- Overall HTML template for the WWW site, translated from
`wwwView.pageTemplate(title, body)` with the exact whitespace of the
template literal. -/
def pageTemplate (title body : String) : String :=
  "\n\t\t<html lang=\"en\">\n\t\t<head>\n\t\t\t<title>" ++ title ++
  "</title>\n\t\t</head>\n\t\t<body>" ++ body ++ "</body>\n\t\t</html>\n\t"

/-- Modelled from the spec: `HttpResponse.createHtmlResponse({status,
body})` (source not in this tree) builds an HTML response carrying the
given status and body. -/
def createHtmlResponse (status : Nat) (body : String) : HttpResponse :=
  { status := status, body := body }

/-- Error page response, translated from `wwwView.errorPage(status,
message)`: the title is the status, a colon-space, and the message;
the body is the message wrapped in a paragraph tag; both are rendered
through `pageTemplate`. -/
def errorPage (status : Nat) (message : String) : HttpResponse :=
  let title := toString status ++ ": " ++ message
  let body := "<p>" ++ message ++ "</p>"
  createHtmlResponse status (pageTemplate title body)

end wwwView

/-- Modelled from the spec: `homePageView.homePage(text)` (source not
in this tree) is a pure view function mapping an optional text value to
the home page document, embedding the text in the text field of the
page. -/
def homePage (text : Option String := none) : HttpResponse :=
  wwwView.createHtmlResponse 200
    (wwwView.pageTemplate "ROT-13 Translator"
      ("<form method=\"post\"><input type=\"text\" name=\"text\" value=\"" ++
        text.getD "" ++ "\" /><input type=\"submit\" value=\"Transform\" /></form>"))

/- ---------------------------------------------------------------- -/
/- The home page controller (translated from the completed           -/
/- HomePageController.postAsync).                                    -/
/- ---------------------------------------------------------------- -/

/-- The parse-error log record written by the guard clauses of
postAsync: monitor alert, the fixed message, the failure details, and
the original request body. -/
def parseErrorRecord (details body : String) : LogRecord :=
  { alert := "monitor", message := "form parse error in POST /",
    details := some details, body := some body }

/-- The timeout log record written by the timeout callback of
postAsync: emergency alert with `timeoutInMs: 5000`. -/
def timeoutRecord : LogRecord :=
  { alert := "emergency", message := "ROT-13 service timed out in POST /",
    timeoutInMs := some 5000 }

/-- The service-error log record written by the catch block of
postAsync: emergency alert with the caught error. -/
def serviceErrorRecord (error : String) : LogRecord :=
  { alert := "emergency", message := "ROT-13 service error in POST /",
    error := some error }

/-- HomePageController.postAsync(request, config), translated from the
completed controller.  Inputs: the request body (readBodyAsync on the
null HttpRequest yields its configured body), the rot13ServicePort of
the config, the configured outcome queue of the null Rot13Client, and
whether the test advances the timers of the null clock
(advanceNullTimersAsync).  Output: the response (`none` when the
returned promise never settles, i.e. a hung service with no clock
advance) and the ordered trace of observable events.

The body is parsed with URLSearchParams getAll of the text field; zero
fields log a monitor record and return the plain home page; more than
one field likewise; otherwise rot13Client.transform(port, input)
appends a request record and yields a promise that settles immediately
(response or error) or hangs, raced by clock.timeoutAsync(5000, ...)
whose callback logs the emergency record, invokes cancelFn (appending
the `cancelled: true` request record), and produces the fallback text
"ROT-13 service timed out"; a rejection is caught, logged, and answered
with "ROT-13 service failed". -/
def postAsync (body : String) (rot13ServicePort : Nat)
    (outcomes : List Rot13Outcome) (clockAdvanced : Bool) :
    Option HttpResponse × List Event :=
  let textFields := URLSearchParams.getAll "text" body
  if textFields.length = 0 then
    (some (homePage none),
     [.logRecord (parseErrorRecord "\x27text\x27 form field not found" body)])
  else if textFields.length ≠ 1 then
    (some (homePage none),
     [.logRecord (parseErrorRecord "multiple \x27text\x27 form fields found" body)])
  else
    let userInput := textFields.getD 0 ""
    let requestRecord : Rot13Request := { port := rot13ServicePort, text := userInput }
    match outcomes.getD 0 (Rot13Outcome.response nullResponseDefault) with
    | .response value =>
      (some (homePage (some value)),
       [.rot13Request requestRecord, .produced value])
    | .error message =>
      (some (homePage (some "ROT-13 service failed")),
       [.rot13Request requestRecord, .logRecord (serviceErrorRecord message)])
    | .hang =>
      if clockAdvanced then
        (some (homePage (some "ROT-13 service timed out")),
         [.rot13Request requestRecord,
          .logRecord timeoutRecord,
          .rot13Request { port := rot13ServicePort, text := userInput, cancelled := true },
          .produced "ROT-13 service timed out"])
      else
        (none, [.rot13Request requestRecord])

/-- The events of the timeout path that the ordering guarantee speaks
about: emergency log records, cancellation request records, and the
production of the awaited value. -/
def isTimeoutPathEvent : Event → Bool
  | .logRecord rec => rec.alert == "emergency"
  | .rot13Request r => r.cancelled
  | .produced _ => true

/- ---------------------------------------------------------------- -/
/- ROT-13 logic (translated from rot13.transform).  JS strings are   -/
/- sequences of UTF-16 code units; charCodeAt and fromCharCode        -/
/- operate on those code units, modelled here as naturals.            -/
/- ---------------------------------------------------------------- -/

namespace rot13

/-- The toUpperCase step on the code units the transformation compares
(only ASCII letters reach it). -/
def toUpperCode (c : Nat) : Nat :=
  if 97 ≤ c ∧ c ≤ 122 then c - 32 else c

/-- Whether a code unit matches the regex class of ASCII letters. -/
def isAsciiLetter (c : Nat) : Prop :=
  (65 ≤ c ∧ c ≤ 90) ∨ (97 ≤ c ∧ c ≤ 122)

instance (c : Nat) : Decidable (isAsciiLetter c) := by
  unfold isAsciiLetter; infer_instance

/-- The transformLetter function, translated from the source: rotate
forward 13 when the uppercased letter is at most the letter M (code
77), backward 13 otherwise. -/
def transformLetter (c : Nat) : Nat :=
  if toUpperCode c ≤ 77 then c + 13 else c - 13

/-- The global regex replacement applied to one code unit: letters are
rotated, everything else is untouched. -/
def transformCode (c : Nat) : Nat :=
  if isAsciiLetter c then transformLetter c else c

/-- The transform function of the ROT-13 service logic, translated
from the source. -/
def transform (s : List Nat) : List Nat :=
  s.map transformCode

end rot13

/- ---------------------------------------------------------------- -/
/- Helper lemmas.                                                    -/
/- ---------------------------------------------------------------- -/

/-- The home page document embeds the text value it is rendered
with. -/
theorem homePage_embeds (v : String) :
    ∃ pre post : String, (homePage (some v)).body = pre ++ v ++ post := by
  refine ⟨"\n\t\t<html lang=\"en\">\n\t\t<head>\n\t\t\t<title>" ++ "ROT-13 Translator" ++
      "</title>\n\t\t</head>\n\t\t<body>" ++
      "<form method=\"post\"><input type=\"text\" name=\"text\" value=\"",
    "\" /><input type=\"submit\" value=\"Transform\" /></form>" ++
      "</body>\n\t\t</html>\n\t", ?_⟩
  simp only [homePage, wwwView.createHtmlResponse, wwwView.pageTemplate,
    Option.getD_some, String.append_assoc]

/-- Transforming a code unit twice restores it. -/
theorem rot13.transformCode_twice (c : Nat) :
    rot13.transformCode (rot13.transformCode c) = c := by
  by_cases h : rot13.isAsciiLetter c
  · have h1 : 65 ≤ c := by rcases h with ⟨a, b⟩ | ⟨a, b⟩ <;> omega
    have h2 : c ≤ 122 := by rcases h with ⟨a, b⟩ | ⟨a, b⟩ <;> omega
    interval_cases c <;> decide
  · simp [rot13.transformCode, h]

/- ---------------------------------------------------------------- -/
/- Claims.                                                           -/
/- ---------------------------------------------------------------- -/

/-- C3: for every POST request whose body has no text form field, the
handler returns the default home page, the log contains exactly one
monitor record whose details field is the fixed not-found message and
whose body field is the original body, and the ROT-13 client receives
zero requests. -/
theorem postAsync_missing_field (body : String) (rot13ServicePort : Nat)
    (outcomes : List Rot13Outcome) (clockAdvanced : Bool)
    (h : URLSearchParams.getAll "text" body = []) :
    (postAsync body rot13ServicePort outcomes clockAdvanced).1 = some (homePage none) ∧
    logOutput (postAsync body rot13ServicePort outcomes clockAdvanced).2 =
      [{ alert := "monitor", message := "form parse error in POST /",
         details := some "\x27text\x27 form field not found", body := some body }] ∧
    rot13Requests (postAsync body rot13ServicePort outcomes clockAdvanced).2 = [] := by
  have e : postAsync body rot13ServicePort outcomes clockAdvanced =
      (some (homePage none),
       [.logRecord (parseErrorRecord "\x27text\x27 form field not found" body)]) := by
    simp [postAsync, h]
  refine ⟨by rw [e], ?_, ?_⟩
  · rw [e]; simp [logOutput, parseErrorRecord]
  · rw [e]; simp [rot13Requests]

/-- C3 witness: the empty body has no text form field; the handler
logs one monitor record carrying the empty body. -/
theorem postAsync_missing_field_witness :
    URLSearchParams.getAll "text" "" = [] ∧
    logOutput (postAsync "" 42 [] true).2 =
      [{ alert := "monitor", message := "form parse error in POST /",
         details := some "\x27text\x27 form field not found", body := some "" }] :=
  ⟨by decide, (postAsync_missing_field "" 42 [] true (by decide)).2.1⟩

/-- C4: for every POST request whose body has two or more text form
fields, the handler returns the default home page (no exception
escapes), and the log contains exactly one monitor record whose
details field is the fixed duplicate-field message; the ROT-13 client
receives zero requests. -/
theorem postAsync_duplicate_field (body : String) (rot13ServicePort : Nat)
    (outcomes : List Rot13Outcome) (clockAdvanced : Bool)
    (h : 2 ≤ (URLSearchParams.getAll "text" body).length) :
    (postAsync body rot13ServicePort outcomes clockAdvanced).1 = some (homePage none) ∧
    logOutput (postAsync body rot13ServicePort outcomes clockAdvanced).2 =
      [{ alert := "monitor", message := "form parse error in POST /",
         details := some "multiple \x27text\x27 form fields found", body := some body }] ∧
    rot13Requests (postAsync body rot13ServicePort outcomes clockAdvanced).2 = [] := by
  have h0 : ¬ (URLSearchParams.getAll "text" body).length = 0 := by omega
  have h1 : (URLSearchParams.getAll "text" body).length ≠ 1 := by omega
  have e : postAsync body rot13ServicePort outcomes clockAdvanced =
      (some (homePage none),
       [.logRecord (parseErrorRecord "multiple \x27text\x27 form fields found" body)]) := by
    simp [postAsync, h0, h1]
  refine ⟨by rw [e], ?_, ?_⟩
  · rw [e]; simp [logOutput, parseErrorRecord]
  · rw [e]; simp [rot13Requests]

/-- C4 witness: a body with two text fields yields the duplicate-field
monitor record and the default home page. -/
theorem postAsync_duplicate_field_witness :
    2 ≤ (URLSearchParams.getAll "text" "text=one&text=two").length ∧
    logOutput (postAsync "text=one&text=two" 42 [] true).2 =
      [{ alert := "monitor", message := "form parse error in POST /",
         details := some "multiple \x27text\x27 form fields found",
         body := some "text=one&text=two" }] :=
  ⟨by decide, (postAsync_duplicate_field "text=one&text=two" 42 [] true (by decide)).2.1⟩

/-- C6: for the body with one URL-encoded text field and service port
999, the handler makes exactly one ROT-13 call, recorded with port 999
and the URL-decoded text, with no further normalization. -/
theorem postAsync_request_recording (clockAdvanced : Bool) :
    rot13Requests (postAsync "text=hello%20world" 999 [] clockAdvanced).2 =
      [{ port := 999, text := "hello world" }] := by
  cases clockAdvanced <;> decide

/-- C9: the ROT-13 transformation rotates the letters A through M and
a through m forward 13 code points, the letters N through Z and n
through z backward 13 code points, leaves every non-letter unchanged,
and is an involution on every string. -/
theorem rot13_transform_spec :
    (∀ c, (65 ≤ c ∧ c ≤ 77) ∨ (97 ≤ c ∧ c ≤ 109) → rot13.transformCode c = c + 13) ∧
    (∀ c, (78 ≤ c ∧ c ≤ 90) ∨ (110 ≤ c ∧ c ≤ 122) → rot13.transformCode c = c - 13) ∧
    (∀ c, ¬ rot13.isAsciiLetter c → rot13.transformCode c = c) ∧
    (∀ s, rot13.transform (rot13.transform s) = s) := by
  refine ⟨?_, ?_, ?_, ?_⟩
  · rintro c (⟨h1, h2⟩ | ⟨h1, h2⟩) <;> interval_cases c <;> decide
  · rintro c (⟨h1, h2⟩ | ⟨h1, h2⟩) <;> interval_cases c <;> decide
  · intro c h; simp [rot13.transformCode, h]
  · intro s
    induction s with
    | nil => rfl
    | cons a t ih =>
      simp only [rot13.transform, List.map_cons] at ih ⊢
      rw [rot13.transformCode_twice]
      exact congrArg (a :: ·) ih

/-- C9 witness: the letter A rotates forward to N, the letter Z
rotates back to M, an exclamation mark is untouched, and a sample
string is restored by a double transformation. -/
theorem rot13_transform_spec_witness :
    rot13.transformCode 65 = 65 + 13 ∧
    rot13.transformCode 90 = 90 - 13 ∧
    rot13.transformCode 33 = 33 ∧
    rot13.transform (rot13.transform [104, 101, 108, 108, 111, 33]) =
      [104, 101, 108, 108, 111, 33] :=
  ⟨rot13_transform_spec.1 65 (by decide),
   rot13_transform_spec.2.1 90 (by decide),
   rot13_transform_spec.2.2.1 33 (by decide),
   rot13_transform_spec.2.2.2 [104, 101, 108, 108, 111, 33]⟩

/-- C10: for every status number and message string, the error page
response carries the given status, and its body contains both the
title element built from the status and message and the paragraph
element built from the message. -/
theorem errorPage_spec (status : Nat) (message : String) :
    (wwwView.errorPage status message).status = status ∧
    (∃ pre post : String, (wwwView.errorPage status message).body =
      pre ++ ("<title>" ++ toString status ++ ": " ++ message ++ "</title>") ++ post) ∧
    (∃ pre post : String, (wwwView.errorPage status message).body =
      pre ++ ("<p>" ++ message ++ "</p>") ++ post) := by
  refine ⟨rfl, ?_, ?_⟩
  · refine ⟨"\n\t\t<html lang=\"en\">\n\t\t<head>\n\t\t\t",
      "\n\t\t</head>\n\t\t<body>" ++ ("<p>" ++ message ++ "</p>") ++
        "</body>\n\t\t</html>\n\t", ?_⟩
    have h1 : ("\n\t\t<html lang=\"en\">\n\t\t<head>\n\t\t\t<title>" : String) =
        "\n\t\t<html lang=\"en\">\n\t\t<head>\n\t\t\t" ++ "<title>" := by decide
    have h2 : ("</title>\n\t\t</head>\n\t\t<body>" : String) =
        "</title>" ++ "\n\t\t</head>\n\t\t<body>" := by decide
    simp only [wwwView.errorPage, wwwView.createHtmlResponse, wwwView.pageTemplate,
      h1, h2, String.append_assoc]
  · refine ⟨"\n\t\t<html lang=\"en\">\n\t\t<head>\n\t\t\t<title>" ++
        (toString status ++ ": " ++ message) ++ "</title>\n\t\t</head>\n\t\t<body>",
      "</body>\n\t\t</html>\n\t", ?_⟩
    simp only [wwwView.errorPage, wwwView.createHtmlResponse, wwwView.pageTemplate,
      String.append_assoc]

/-- C1: for every POST request whose body has exactly one text form
field, when the ROT-13 client hangs and the null clock is advanced
past the 5000 ms timeout, postAsync resolves with the home page
containing the fixed timeout fallback text, the log contains exactly
one emergency record with `timeoutInMs: 5000`, and the tracked request
list contains the original request record followed by a record for the
same port and text with `cancelled: true`. -/
theorem postAsync_timeout_scenario (body : String) (rot13ServicePort : Nat)
    (h : (URLSearchParams.getAll "text" body).length = 1) :
    (postAsync body rot13ServicePort [Rot13Outcome.hang] true).1 =
      some (homePage (some "ROT-13 service timed out")) ∧
    (∃ pre post : String, (homePage (some "ROT-13 service timed out")).body =
      pre ++ "ROT-13 service timed out" ++ post) ∧
    logOutput (postAsync body rot13ServicePort [Rot13Outcome.hang] true).2 =
      [{ alert := "emergency", message := "ROT-13 service timed out in POST /",
         timeoutInMs := some 5000 }] ∧
    rot13Requests (postAsync body rot13ServicePort [Rot13Outcome.hang] true).2 =
      [{ port := rot13ServicePort, text := (URLSearchParams.getAll "text" body).getD 0 "" },
       { port := rot13ServicePort, text := (URLSearchParams.getAll "text" body).getD 0 "",
         cancelled := true }] := by
  have e : postAsync body rot13ServicePort [Rot13Outcome.hang] true =
      (some (homePage (some "ROT-13 service timed out")),
       [.rot13Request ⟨rot13ServicePort, (URLSearchParams.getAll "text" body).getD 0 "", false⟩,
        .logRecord timeoutRecord,
        .rot13Request ⟨rot13ServicePort, (URLSearchParams.getAll "text" body).getD 0 "", true⟩,
        .produced "ROT-13 service timed out"]) := by
    simp [postAsync, h]
  refine ⟨by rw [e], homePage_embeds _, ?_, ?_⟩
  · rw [e]; simp [logOutput, timeoutRecord]
  · rw [e]; simp [rot13Requests]

/-- C1 witness: a concrete hanging request resolves with the timeout
fallback page once the clock is advanced. -/
theorem postAsync_timeout_scenario_witness :
    (URLSearchParams.getAll "text" "text=my_input").length = 1 ∧
    (postAsync "text=my_input" 9999 [Rot13Outcome.hang] true).1 =
      some (homePage (some "ROT-13 service timed out")) :=
  ⟨by decide, (postAsync_timeout_scenario "text=my_input" 9999 (by decide)).1⟩

/-- C2: on every execution of the timeout path, the emergency log
record, the cancellation of the in-flight request, and the production
of the timeout fallback value happen in that relative order, each
exactly once. -/
theorem postAsync_timeout_ordering (body : String) (rot13ServicePort : Nat)
    (h : (URLSearchParams.getAll "text" body).length = 1) :
    List.filter isTimeoutPathEvent (postAsync body rot13ServicePort [Rot13Outcome.hang] true).2 =
      [Event.logRecord
         { alert := "emergency",
           message := "ROT-13 service timed out in POST /",
           timeoutInMs := some 5000 },
       Event.rot13Request
         { port := rot13ServicePort,
           text := (URLSearchParams.getAll "text" body).getD 0 "",
           cancelled := true },
       Event.produced "ROT-13 service timed out"] := by
  have e : postAsync body rot13ServicePort [Rot13Outcome.hang] true =
      (some (homePage (some "ROT-13 service timed out")),
       [.rot13Request ⟨rot13ServicePort, (URLSearchParams.getAll "text" body).getD 0 "", false⟩,
        .logRecord timeoutRecord,
        .rot13Request ⟨rot13ServicePort, (URLSearchParams.getAll "text" body).getD 0 "", true⟩,
        .produced "ROT-13 service timed out"]) := by
    simp [postAsync, h]
  rw [e]
  simp [List.filter, isTimeoutPathEvent, timeoutRecord]

/-- C2 witness: the filtered event trace of a concrete timed-out
request is the emergency record, the cancellation, and the fallback
production, in that order. -/
theorem postAsync_timeout_ordering_witness :
    (URLSearchParams.getAll "text" "text=my_input").length = 1 ∧
    List.filter isTimeoutPathEvent (postAsync "text=my_input" 9999 [Rot13Outcome.hang] true).2 =
      [Event.logRecord
         { alert := "emergency",
           message := "ROT-13 service timed out in POST /",
           timeoutInMs := some 5000 },
       Event.rot13Request
         { port := 9999,
           text := (URLSearchParams.getAll "text" "text=my_input").getD 0 "",
           cancelled := true },
       Event.produced "ROT-13 service timed out"] :=
  ⟨by decide, postAsync_timeout_ordering "text=my_input" 9999 (by decide)⟩

/-- C5: for every POST request with a single text field, when the
ROT-13 client rejects with a configured error, postAsync resolves
(does not throw) with the home page containing the fixed error
fallback text, which is distinct from the timeout fallback text, and
the log contains exactly one emergency record referencing the
error. -/
theorem postAsync_service_error (body : String) (rot13ServicePort : Nat)
    (err : String) (clockAdvanced : Bool)
    (h : (URLSearchParams.getAll "text" body).length = 1) :
    (postAsync body rot13ServicePort [Rot13Outcome.error err] clockAdvanced).1 =
      some (homePage (some "ROT-13 service failed")) ∧
    (∃ pre post : String, (homePage (some "ROT-13 service failed")).body =
      pre ++ "ROT-13 service failed" ++ post) ∧
    ("ROT-13 service failed" : String) ≠ "ROT-13 service timed out" ∧
    logOutput (postAsync body rot13ServicePort [Rot13Outcome.error err] clockAdvanced).2 =
      [{ alert := "emergency", message := "ROT-13 service error in POST /",
         error := some err }] := by
  have e : postAsync body rot13ServicePort [Rot13Outcome.error err] clockAdvanced =
      (some (homePage (some "ROT-13 service failed")),
       [.rot13Request ⟨rot13ServicePort, (URLSearchParams.getAll "text" body).getD 0 "", false⟩,
        .logRecord (serviceErrorRecord err)]) := by
    simp [postAsync, h]
  refine ⟨by rw [e], homePage_embeds _, by decide, ?_⟩
  rw [e]; simp [logOutput, serviceErrorRecord]

/-- C5 witness: a client configured to reject with the error boom
resolves with the error fallback page and logs one emergency record
referencing boom. -/
theorem postAsync_service_error_witness :
    (URLSearchParams.getAll "text" "text=my_input").length = 1 ∧
    logOutput (postAsync "text=my_input" 42 [Rot13Outcome.error "boom"] true).2 =
      [{ alert := "emergency", message := "ROT-13 service error in POST /",
         error := some "boom" }] :=
  ⟨by decide, (postAsync_service_error "text=my_input" 42 "boom" true (by decide)).2.2.2⟩

/-- C7: for every POST request with a single text field, when the
ROT-13 client responds with a configured value that settles before the
timeout, postAsync returns the home page rendered with that value
embedded in it. -/
theorem postAsync_renders_response (body : String) (rot13ServicePort : Nat)
    (value : String) (clockAdvanced : Bool)
    (h : (URLSearchParams.getAll "text" body).length = 1) :
    (postAsync body rot13ServicePort [Rot13Outcome.response value] clockAdvanced).1 =
      some (homePage (some value)) ∧
    ∃ pre post : String, (homePage (some value)).body = pre ++ value ++ post := by
  have e : postAsync body rot13ServicePort [Rot13Outcome.response value] clockAdvanced =
      (some (homePage (some value)),
       [.rot13Request ⟨rot13ServicePort, (URLSearchParams.getAll "text" body).getD 0 "", false⟩,
        .produced value]) := by
    simp [postAsync, h]
  exact ⟨by rw [e], homePage_embeds value⟩

/-- C7 witness: a client configured to respond with my_response makes
the handler return the home page rendered with my_response. -/
theorem postAsync_renders_response_witness :
    (URLSearchParams.getAll "text" "text=irrelevant_text").length = 1 ∧
    (postAsync "text=irrelevant_text" 42 [Rot13Outcome.response "my_response"] true).1 =
      some (homePage (some "my_response")) :=
  ⟨by decide,
   (postAsync_renders_response "text=irrelevant_text" 42 "my_response" true (by decide)).1⟩

/-- C8: under the null clock, timeoutAsync resolves with the value of
the promise whenever the promise settles at or before the timeout, and
with the result of the timeout callback whenever the promise has not
settled by the timeout; the operation wins a simultaneous tie, and the
outcome is a function of the inputs, hence identical across repeated
runs. -/
theorem timeoutAsync_race {α : Type} (timeoutInMs : Nat) (promise : NullPromise α)
    (timeoutFn : Unit → α) :
    (∀ t, promise.settlesAt = some t → t ≤ timeoutInMs →
      timeoutAsync timeoutInMs promise timeoutFn = promise.value) ∧
    ((promise.settlesAt = none ∨ ∃ t, promise.settlesAt = some t ∧ timeoutInMs < t) →
      timeoutAsync timeoutInMs promise timeoutFn = timeoutFn ()) ∧
    (promise.settlesAt = some timeoutInMs →
      timeoutAsync timeoutInMs promise timeoutFn = promise.value) := by
  refine ⟨?_, ?_, ?_⟩
  · intro t ht hle
    simp [timeoutAsync, ht, hle]
  · rintro (hnone | ⟨t, ht, hlt⟩)
    · simp [timeoutAsync, hnone]
    · simp only [timeoutAsync, ht]
      rw [if_neg (by omega)]
  · intro ht
    simp [timeoutAsync, ht]

/-- C8 witness: a promise settling at time 0 beats a 5000 ms timeout,
a never-settling promise yields the callback result, and a promise
settling exactly at the timeout wins the tie. -/
theorem timeoutAsync_race_witness :
    timeoutAsync 5000 ({ settlesAt := some 0, value := "response" } : NullPromise String)
      (fun _ => "fallback") = "response" ∧
    timeoutAsync 5000 ({ settlesAt := none, value := "unused" } : NullPromise String)
      (fun _ => "fallback") = "fallback" ∧
    timeoutAsync 5000 ({ settlesAt := some 5000, value := "tie" } : NullPromise String)
      (fun _ => "fallback") = "tie" :=
  ⟨(timeoutAsync_race 5000 _ _).1 0 rfl (by decide),
   (timeoutAsync_race 5000 _ _).2.1 (Or.inl rfl),
   (timeoutAsync_race 5000 _ _).2.2 rfl⟩

end Agile2022
